import Mathlib

/-!
Verification development for uncloud's core: the gRPC fan-out proxy Director
(internal/machine/api/proxy/director.go) and the WireGuard network driver and
controller (the network package file bundled alongside it in the sources).

The Go code is shallowly embedded: pure routing logic becomes Lean functions,
stateful code becomes explicit state passing, fallible kernel / network calls
are modelled on their success path (with explicit oracles where a claim needs
the failure branch), and concurrency is modelled by exposing the interleaving
points (cache snapshots, per-send outcomes) as explicit parameters.
-/

namespace Uncloud

/-! ## Proxy package: Director (director.go) -/

/-- proxy.Mode from grpc-proxy: One2One routes to a single backend, One2Many
fans the call out to all backends. -/
inductive Mode where
  | One2One
  | One2Many
deriving DecidableEq, Repr

/-- A remote backend cached by the Director. The Go struct holds a pooled
connection; the model keeps the address it was created for, the remote port,
and a creation id distinguishing separately created instances. -/
structure RemoteBackend where
  addr : String
  port : Nat
  id : Nat
deriving DecidableEq, Repr

/-- A proxy.Backend: either the local backend (unix socket path plus the local
machine address it was built with) or a cached remote backend. -/
inductive Backend where
  | localB (sockPath : String) (addr : String)
  | remoteB (rb : RemoteBackend)
deriving DecidableEq, Repr

/-- The Director's sync.Map of remote backends, keyed by machine address. -/
abbrev RBCache := List (String × RemoteBackend)

/-- sync.Map.Load: first binding for the key, if any. -/
def cacheLookup : RBCache → String → Option RemoteBackend
  | [], _ => none
  | (k, v) :: rest, a => if k = a then some v else cacheLookup rest a

/-- Store a binding for a key that is absent (the only way the Director ever
stores: LoadOrStore when Load missed). -/
def cacheInsert (c : RBCache) (a : String) (b : RemoteBackend) : RBCache :=
  (a, b) :: c

/-- Well-formedness maintained by the Director: a backend cached under an
address was created for that address (NewRemoteBackend(addr, port)). -/
def CacheWF (c : RBCache) : Prop :=
  ∀ a b, cacheLookup c a = some b → b.addr = a

/-- The mutable part of the Director used by remoteBackend: the cache plus a
counter supplying fresh creation ids. -/
structure RBState where
  cache : RBCache
  nextId : Nat
deriving Repr

/-- gRPC status codes used by the Director. -/
inductive GCode where
  | invalidArgument
  | internalErr
deriving DecidableEq, Repr

/-- A gRPC status error as produced by status.Error(code, msg). -/
structure GrpcStatus where
  code : GCode
  msg : String
deriving DecidableEq, Repr

/-- Director.remoteBackend, sequential execution (no concurrent writer between
the Load and the LoadOrStore; the racy interleaving is modelled separately by
remoteBackendRace). NewRemoteBackend's dial is modelled by the dialOk oracle;
on failure the Go error message is modelled as "dial " ++ addr. -/
def remoteBackend (dialOk : String → Bool) (port : Nat) (st : RBState) (addr : String) :
    Except String (RemoteBackend × RBState) :=
  match cacheLookup st.cache addr with
  | some b => Except.ok (b, st)
  | none =>
    if dialOk addr then
      Except.ok (⟨addr, port, st.nextId⟩,
        ⟨cacheInsert st.cache addr ⟨addr, port, st.nextId⟩, st.nextId + 1⟩)
    else
      Except.error ("dial " ++ addr)

/-- Director.remoteBackend under a concurrent interleaving: c1 is the cache
snapshot observed by the initial Load, c2 the snapshot observed by the
LoadOrStore after NewRemoteBackend returned (concurrent calls may have stored
entries in between). Records whether a fresh backend was created and whether
it was closed because LoadOrStore reported an existing entry. -/
structure RBCallResult where
  backend : RemoteBackend
  created : Bool
  closedFresh : Bool
  cache : RBCache
deriving Repr

/-- The racy remoteBackend: Load on c1; on miss, create fresh and LoadOrStore
on c2; when LoadOrStore loads an existing entry the fresh backend is closed
and the existing one returned. -/
def remoteBackendRace (c1 c2 : RBCache) (addr : String) (port : Nat) (freshId : Nat) :
    RBCallResult :=
  match cacheLookup c1 addr with
  | some b => ⟨b, false, false, c2⟩
  | none =>
    let fresh : RemoteBackend := ⟨addr, port, freshId⟩
    match cacheLookup c2 addr with
    | some existing => ⟨existing, true, true, c2⟩
    | none => ⟨fresh, true, false, cacheInsert c2 addr fresh⟩

/-- The Director's state relevant to routing: the localAddress / localBackend
pair guarded by the RWMutex (read once into locals at the start of Director),
the remote backend cache, and the fixed remote port. -/
structure DirectorState where
  localAddress : String
  localBackend : Backend
  rb : RBState
  remotePort : Nat

/-- Incoming gRPC metadata: map from key to list of string values. -/
abbrev Metadata := List (String × List String)

/-- Lookup of a metadata key (md[key] with its ok flag as Option). -/
def mdGet : Metadata → String → Option (List String)
  | [], _ => none
  | (k, v) :: rest, a => if k = a then some v else mdGet rest a

/-- The triple returned by Director.Director: mode, backend slice, error. -/
structure RouteDecision where
  mode : Mode
  backends : List Backend
  err : Option GrpcStatus

/-- The backend-building loop of Director.Director (lines 67-79): for each
address equal to the local address use the local backend, otherwise call
remoteBackend; a remoteBackend failure aborts with codes.Internal. The cache
state is threaded and survives an abort (sync.Map stores are in place). -/
def buildBackends (dialOk : String → Bool) (port : Nat) (la : String) (lb : Backend) :
    RBState → List String → Except GrpcStatus (List Backend) × RBState
  | st, [] => (Except.ok [], st)
  | st, addr :: rest =>
    if addr = la then
      match buildBackends dialOk port la lb st rest with
      | (Except.ok bs, st') => (Except.ok (lb :: bs), st')
      | (Except.error e, st') => (Except.error e, st')
    else
      match remoteBackend dialOk port st addr with
      | Except.ok (b, st1) =>
        match buildBackends dialOk port la lb st1 rest with
        | (Except.ok bs, st') => (Except.ok (Backend.remoteB b :: bs), st')
        | (Except.error e, st') => (Except.error e, st')
      | Except.error msg => (Except.error ⟨GCode.internalErr, msg⟩, st)

/-- Director.Director: route an incoming call from its metadata. Returns the
routing decision together with the Director state after the call (the cache
may have grown). -/
def director (dialOk : String → Bool) (s : DirectorState) (md : Option Metadata) :
    RouteDecision × DirectorState :=
  match md with
  | none => (⟨Mode.One2One, [s.localBackend], none⟩, s)
  | some m =>
    match mdGet m "proxy-authority" with
    | some _ => (⟨Mode.One2One, [s.localBackend], none⟩, s)
    | none =>
      match mdGet m "machines" with
      | none => (⟨Mode.One2One, [s.localBackend], none⟩, s)
      | some machines =>
        match machines with
        | [] => (⟨Mode.One2One, [], some ⟨GCode.invalidArgument, "no machines specified"⟩⟩, s)
        | _ :: _ =>
          match buildBackends dialOk s.remotePort s.localAddress s.localBackend s.rb machines with
          | (Except.error e, rb') => (⟨Mode.One2One, [], some e⟩, { s with rb := rb' })
          | (Except.ok bs, rb') =>
            if bs.length = 1 then (⟨Mode.One2One, bs, none⟩, { s with rb := rb' })
            else (⟨Mode.One2Many, bs, none⟩, { s with rb := rb' })

/-- Relation between an input address and the backend built for it by the loop
of Director.Director: the local address maps to the local backend, any other
address to a remote backend created for that address which is the one cached
at the end of the call, and which coincides with the backend cached at the
start of the call when one was present. c0 is the cache at the start of the
call, c1 the cache when the call returns. -/
def matchesBackend (la : String) (lb : Backend) (c0 c1 : RBCache) (a : String) (b : Backend) :
    Prop :=
  (a = la ∧ b = lb) ∨
  (a ≠ la ∧ ∃ rb, b = Backend.remoteB rb ∧ rb.addr = a ∧
    cacheLookup c1 a = some rb ∧ ∀ rb0, cacheLookup c0 a = some rb0 → rb = rb0)

/-! ## Network package: WireGuardNetwork (driver and controller) -/

/-- An IP prefix as compared by the driver (netlink compares the rendered
IPNet strings, which is structural equality of address text and bit length). -/
structure Addr where
  ip : String
  bits : Nat
deriving DecidableEq, Repr

/-- An IP:port endpoint of a peer. -/
structure Endpoint where
  ip : String
  port : Nat
deriving DecidableEq, Repr

/-- Modelled from the spec: the peer struct (peer.go is not in the source
snapshot; §3 "Peer" and §4.1 describe it). Carries the remote public key, the
currently selected endpoint, the candidate endpoints, the down status derived
from handshake age, the instant of the last endpoint change and the index into
the candidate list used for round-robin rotation. -/
structure Peer where
  publicKey : String
  endpoint : Option Endpoint
  candidates : List Endpoint
  down : Bool
  lastChange : Nat
  idx : Nat
deriving DecidableEq, Repr

/-- A peer entry in the network Config. Only the fields the modelled driver
reads are kept: public key, configured endpoint, candidate endpoints. -/
structure PeerConfig where
  publicKey : String
  endpoint : Option Endpoint
  candidates : List Endpoint
deriving DecidableEq, Repr

/-- The network Config passed to Configure: the machine's subnet, its
management IP and the peer list. -/
structure Config where
  subnet : Addr
  managementIP : String
  peers : List PeerConfig
deriving DecidableEq, Repr

/-- A peer as reported by the kernel WireGuard device: public key plus the
endpoint observed on the wire (none when no packet was ever received). -/
structure DevPeer where
  publicKey : String
  endpoint : Option Endpoint
deriving DecidableEq, Repr

/-- A watcher channel registered through WatchEndpoints, with its closed flag. -/
structure WChan where
  id : Nat
  closed : Bool
deriving DecidableEq, Repr

/-- The event published to watchers when a peer's endpoint changes. -/
structure EndpointChangeEvent where
  publicKey : String
  endpoint : Endpoint
deriving DecidableEq, Repr

/-- The WireGuardNetwork struct together with the kernel state of its link
that the claims are about: the link (none after Cleanup deleted it), the peers
map (none models the nil map before the first Configure), the registered
watchers, the running flag, the link's admin-up flag and the kernel address
set of the interface. Kernel routes are owned by the driver too but no claim
concerns them, so they are left out of the modelled state. -/
structure NetState where
  link : Option String
  peers : Option (List (String × Peer))
  watchers : List WChan
  running : Bool
  linkUp : Bool
  kernelAddrs : List Addr
deriving Repr

/-- Lookup in the peers map. -/
def plookup : List (String × Peer) → String → Option Peer
  | [], _ => none
  | (k, v) :: rest, a => if k = a then some v else plookup rest a

/-- Replace the value stored under a key of the peers map. -/
def pupdate : List (String × Peer) → String → Peer → List (String × Peer)
  | [], _, _ => []
  | (k, v) :: rest, a, p => if k = a then (k, p) :: rest else (k, v) :: pupdate rest a p

/-- Lookup of a device peer by public key (the wgPeers map in configureDevice). -/
def devLookup : List DevPeer → String → Option Endpoint
  | [], _ => none
  | dp :: rest, a => if dp.publicKey = a then dp.endpoint else devLookup rest a

/-- Modelled from the spec: newPeer(config, wgPeer) (peer.go is not in the
source snapshot). Builds a peer from its config; when a kernel peer is given
(first Configure after a restart) the endpoint observed by the kernel is kept
to avoid an unnecessary endpoint rotation (§4.2 step 1). -/
def newPeer (pc : PeerConfig) (observed : Option Endpoint) : Peer :=
  { publicKey := pc.publicKey
    endpoint := match observed with
      | some e => some e
      | none => pc.endpoint
    candidates := pc.candidates
    down := false
    lastChange := 0
    idx := 0 }

/-- Modelled from the spec: peer.updateConfig (§4.1): merge an authoritative
config; if the new config's endpoint differs, replace the selected endpoint. -/
def Peer.updateConfig (p : Peer) (pc : PeerConfig) : Peer :=
  { p with
    candidates := pc.candidates
    endpoint := if pc.endpoint.isSome ∧ pc.endpoint ≠ p.endpoint then pc.endpoint else p.endpoint }

/-- Modelled from the spec: peer.updateFromDevice (§4.1): reconcile with the
endpoint the kernel observed; returns true when the observed endpoint differs
from the stored selected one (an EndpointChangeEvent is then emitted). -/
def Peer.updateFromDevice (p : Peer) (observed : Option Endpoint) : Peer × Bool :=
  match observed with
  | none => (p, false)
  | some e => if p.endpoint = some e then (p, false) else ({ p with endpoint := some e }, true)

/-- ROTATE_INTERVAL from the spec (§4.1), in seconds. -/
def rotateIntervalSeconds : Nat := 5

/-- Modelled from the spec: peer.shouldChangeEndpoint (§4.1): a peer that is
down, whose last endpoint change is at least ROTATE_INTERVAL old and that has
at least two candidate endpoints rotates to the next candidate (round-robin);
otherwise no change. -/
def shouldChangeEndpoint (now : Nat) (p : Peer) : Option Endpoint :=
  if p.down ∧ rotateIntervalSeconds ≤ now - p.lastChange ∧ 2 ≤ p.candidates.length then
    some (p.candidates.getD ((p.idx + 1) % p.candidates.length) ⟨"", 0⟩)
  else none

/-- WireGuardNetwork.configureDevice: on the first Configure (nil peers map)
reconstruct the peers from the kernel device; then create or update peer
structs from the config and delete peers absent from it. The kernel client
calls are modelled on their success path. -/
def configureDevice (devPeers : List DevPeer) (cfg : Config) (st : NetState) : NetState :=
  let peers0 : List (String × Peer) :=
    match st.peers with
    | some ps => ps
    | none => cfg.peers.map (fun pc => (pc.publicKey, newPeer pc (devLookup devPeers pc.publicKey)))
  let peers1 := cfg.peers.foldl
    (fun ps pc =>
      match plookup ps pc.publicKey with
      | some p => pupdate ps pc.publicKey (p.updateConfig pc)
      | none => ps ++ [(pc.publicKey, newPeer pc none)])
    peers0
  let peers2 := peers1.filter (fun kv => cfg.peers.any (fun pc => pc.publicKey = kv.1))
  { st with peers := some peers2 }

/-- netlink.AddrAdd with EEXIST tolerated: add the address unless the link
already bears it. -/
def addrAdd (kernel : List Addr) (a : Addr) : List Addr :=
  if a ∈ kernel then kernel else kernel ++ [a]

/-- WireGuardNetwork.updateAddresses: add every desired address (EEXIST
tolerated), then list the link's addresses and delete every one that matches
no desired address (removing old and out-of-band addresses). Netlink calls
are modelled on their success path. -/
def updateAddresses (kernel : List Addr) (addrs : List Addr) : List Addr :=
  let k1 := addrs.foldl addrAdd kernel
  k1.filter (fun la => decide (la ∈ addrs))

/-- Modelled from the spec: network.MachineIP (not in the source snapshot):
the machine's own address inside its subnet (§3, E1). Its exact value never
matters to the claims; it is kept abstract as a tagged rendering. -/
def MachineIP (subnet : Addr) : String :=
  subnet.ip ++ "#machine"

/-- Modelled from the spec: addrToSingleIPPrefix (not in the source snapshot):
the management IP as a single-IP prefix, /32 for IPv4 (or /128 for IPv6; the
model renders the IPv4 form). -/
def addrToSingleIPPfx (ip : String) : Addr :=
  ⟨ip, 32⟩

/-- The machine prefix computed by Configure: netip.PrefixFrom(MachineIP
(config.Subnet), config.Subnet.Bits()). -/
def machinePfx (cfg : Config) : Addr :=
  ⟨MachineIP cfg.subnet, cfg.subnet.bits⟩

/-- WireGuardNetwork.Configure on its success path: reconcile the device
peers, reconcile the interface addresses to exactly the management prefix and
the machine prefix, and bring the link up. Route reconciliation mutates only
kernel route state, which is outside the modelled state. -/
def Configure (devPeers : List DevPeer) (cfg : Config) (st : NetState) : NetState :=
  let st1 := configureDevice devPeers cfg st
  let addrs := [addrToSingleIPPfx cfg.managementIP, machinePfx cfg]
  let st2 := { st1 with kernelAddrs := updateAddresses st1.kernelAddrs addrs }
  { st2 with linkUp := true }

/-- Outcome of one channel send attempt inside notifyWatchers' select: the
event was received, the 1-second timer fired first, or the context was done. -/
inductive SendOutcome where
  | delivered
  | timeout
  | ctxDone
deriving DecidableEq, Repr

/-- Result of the notifyWatchers send loops. -/
inductive NotifyOutcome where
  | completed
  | cancelled
  | timedOut
deriving DecidableEq, Repr

/-- The inner loop of notifyWatchers: send each event to one watcher channel;
outcome j is the select result of the send of the j-th event. -/
def sendToWatcher (outcome : Nat → SendOutcome) : List EndpointChangeEvent → Nat → NotifyOutcome
  | [], _ => NotifyOutcome.completed
  | _ :: rest, j =>
    match outcome j with
    | SendOutcome.delivered => sendToWatcher outcome rest (j + 1)
    | SendOutcome.ctxDone => NotifyOutcome.cancelled
    | SendOutcome.timeout => NotifyOutcome.timedOut

/-- The outer loop of notifyWatchers over the registered watcher channels;
outcome i j is the select result of sending the j-th event to the i-th
watcher. -/
def sendAllWatchers (outcome : Nat → Nat → SendOutcome) (events : List EndpointChangeEvent) :
    List WChan → Nat → NotifyOutcome
  | [], _ => NotifyOutcome.completed
  | _ :: rest, i =>
    match sendToWatcher (outcome i) events 0 with
    | NotifyOutcome.completed => sendAllWatchers outcome events rest (i + 1)
    | NotifyOutcome.cancelled => NotifyOutcome.cancelled
    | NotifyOutcome.timedOut => NotifyOutcome.timedOut

/-- WireGuardNetwork.notifyWatchers: send every event to every watcher in
order; a send whose 1-second timer fires aborts the publish with a timeout
error; a done context aborts it with a nil error. -/
def notifyWatchers (outcome : Nat → Nat → SendOutcome) (watchers : List WChan)
    (events : List EndpointChangeEvent) : Except String Unit :=
  match sendAllWatchers outcome events watchers 0 with
  | NotifyOutcome.timedOut => Except.error "timeout 1 second"
  | _ => Except.ok ()

/-- One step of the device-reconciliation loop of updatePeersFromDevice: a
kernel peer present in the peers map is updated from the device and, when its
endpoint changed, contributes an EndpointChangeEvent; an unknown kernel peer
is only logged. -/
def updatePeerStep (acc : List (String × Peer) × List EndpointChangeEvent) (dp : DevPeer) :
    List (String × Peer) × List EndpointChangeEvent :=
  match plookup acc.1 dp.publicKey with
  | none => acc
  | some p =>
    match p.updateFromDevice dp.endpoint with
    | (p', true) =>
      (pupdate acc.1 dp.publicKey p', acc.2 ++ [⟨dp.publicKey, p'.endpoint.getD ⟨"", 0⟩⟩])
    | (p', false) => (pupdate acc.1 dp.publicKey p', acc.2)

/-- WireGuardNetwork.updatePeersFromDevice: update the peers status from the
kernel device peers and, when any endpoint changed, notify the watchers; a
notifyWatchers error is logged and ignored, so the method returns nil on
every path (the kernel client calls are modelled on their success path). -/
def updatePeersFromDevice (outcome : Nat → Nat → SendOutcome) (devPeers : List DevPeer)
    (st : NetState) : NetState × Except String Unit :=
  match st.peers with
  | none => (st, Except.ok ())
  | some ps =>
    let upd := devPeers.foldl updatePeerStep (ps, [])
    let st' := { st with peers := some upd.1 }
    if upd.2.isEmpty then (st', Except.ok ())
    else
      let _loggedErr := notifyWatchers outcome st'.watchers upd.2
      (st', Except.ok ())

/-- Rotation applied to a peer whose shouldChangeEndpoint returned a new
endpoint: select it and record the change instant and candidate index. -/
def rotatePeer (p : Peer) (ne : Endpoint) (now : Nat) : Peer :=
  { p with endpoint := some ne, lastChange := now, idx := p.idx + 1 }

/-- WireGuardNetwork.changeWireGuardEndpoints: rotate the endpoint of every
peer that shouldChangeEndpoint selects, apply the patch to the kernel device
(modelled on its success path) and notify the watchers; a notifyWatchers
error is logged and ignored, so the method returns nil on every path. -/
def changeWireGuardEndpoints (outcome : Nat → Nat → SendOutcome) (now : Nat) (st : NetState) :
    NetState × Except String Unit :=
  match st.peers with
  | none => (st, Except.ok ())
  | some ps =>
    let upd := ps.map
      (fun kv =>
        match shouldChangeEndpoint now kv.2 with
        | none => ((kv.1, kv.2), (none : Option EndpointChangeEvent))
        | some ne => ((kv.1, rotatePeer kv.2 ne now), some ⟨kv.1, ne⟩))
    let ps' := upd.map (fun x => x.1)
    let events := upd.filterMap (fun x => x.2)
    let st' := { st with peers := some ps' }
    if events.isEmpty then (st', Except.ok ())
    else
      let _loggedErr := notifyWatchers outcome st'.watchers events
      (st', Except.ok ())

/-- The environment one tick of the control loop observes: the kernel device
peers, the select outcomes of the two notifyWatchers publications (status
update and endpoint rotation) and the current time. -/
structure TickEnv where
  devPeers : List DevPeer
  send1 : Nat → Nat → SendOutcome
  send2 : Nat → Nat → SendOutcome
  now : Nat

/-- One iteration of Run's select loop: a ticker tick with its environment,
or the context becoming done. -/
inductive RunEvent where
  | tick (env : TickEnv)
  | cancel

/-- The synchronous prefix of WireGuardNetwork.Run (lines 397-410): create
the WireGuard client (modelled on its success path), fail when the control
loop is already running, otherwise set the running flag. Run performs no
other precondition check before entering its loop. -/
def runStart (st : NetState) : Except String NetState :=
  if st.running then Except.error "network is already running"
  else Except.ok { st with running := true }

/-- Effect of one tick of the control loop: updatePeersFromDevice then
changeWireGuardEndpoints, both under the lock, their errors logged and
discarded. -/
def tickEffect (env : TickEnv) (st : NetState) : NetState :=
  let st1 := (updatePeersFromDevice env.send1 env.devPeers st).1
  (changeWireGuardEndpoints env.send2 env.now st1).1

/-- Effect of the ctx.Done branch of Run: close every registered watcher
channel and clear the running flag. -/
def cancelEffect (st : NetState) : NetState :=
  { st with
    watchers := st.watchers.map (fun w => { w with closed := true })
    running := false }

/-- Observation of the control loop after a finite trace of events: either it
is still looping, or it returned with a state and a result. -/
inductive RunOutcome where
  | stillRunning (st : NetState)
  | finished (st : NetState) (res : Except String Unit)

/-- The select loop of Run: ticks apply tickEffect and continue; a done
context closes the watchers, clears the running flag and returns nil. -/
def runLoop : NetState → List RunEvent → RunOutcome
  | st, [] => RunOutcome.stillRunning st
  | st, RunEvent.tick env :: rest => runLoop (tickEffect env st) rest
  | st, RunEvent.cancel :: _ => RunOutcome.finished (cancelEffect st) (Except.ok ())

/-- WireGuardNetwork.Run observed over a finite event trace: the synchronous
prefix followed by the select loop. -/
def runModel (st : NetState) (evs : List RunEvent) : RunOutcome :=
  match runStart st with
  | Except.error e => RunOutcome.finished st (Except.error e)
  | Except.ok st' => runLoop st' evs

/-- WireGuardNetwork.Cleanup: refuse while the control loop is running;
otherwise delete the link (netlink.LinkDel may fail, which the delOk oracle
models) and clear the link field on success. -/
def Cleanup (delOk : Bool) (st : NetState) : NetState × Except String Unit :=
  if st.running then
    (st, Except.error "network is still running, stop it before cleanup")
  else if delOk then
    ({ st with link := none }, Except.ok ())
  else
    (st, Except.error "delete WireGuard link")

/-- The NetState produced by NewWireGuardNetwork: the link exists, the peers
map is nil (Configure has never run), no watchers, not running. The kernel
side starts with the link down and no addresses. -/
def freshNet : NetState :=
  { link := some "uncloud0"
    peers := none
    watchers := []
    running := false
    linkUp := false
    kernelAddrs := [] }

/-! ## Concrete inputs used by the witnesses -/

/-- A dial oracle under which every remote backend creation succeeds. -/
def dOkAll : String → Bool := fun _ => true

/-- A concrete machines list with one local and one remote address. -/
def mach0 : List String := ["10.0.0.1", "10.0.0.2"]

/-- Concrete metadata carrying that machines list. -/
def m0 : Metadata := [("machines", mach0)]

/-- Concrete metadata whose machines entry is present but empty. -/
def mEmpty : Metadata := [("machines", [])]

/-- A concrete Director state: local address 10.0.0.1, empty cache. -/
def s0 : DirectorState :=
  { localAddress := "10.0.0.1"
    localBackend := Backend.localB "/run/uncloud.sock" "10.0.0.1"
    rb := { cache := [], nextId := 0 }
    remotePort := 51820 }

/-- A backend stored in the cache by a concurrent creator. -/
def rbStored : RemoteBackend := ⟨"10.0.0.2", 51820, 7⟩

/-- A cache snapshot holding that concurrently stored backend. -/
def cStored : RBCache := [("10.0.0.2", rbStored)]

/-- A network state whose control loop is running. -/
def runningNet : NetState := { freshNet with running := true }

/-- A network state with two registered watchers, not running. -/
def watchedNet : NetState := { freshNet with watchers := [⟨0, false⟩, ⟨1, false⟩] }

/-- A send-outcome oracle under which every watcher send times out. -/
def allTimeout : Nat → Nat → SendOutcome := fun _ _ => SendOutcome.timeout

/-- A concrete endpoint-change event. -/
def ev0 : EndpointChangeEvent := ⟨"pk1", ⟨"192.0.2.1", 51820⟩⟩

/-- A concrete network Config with no peers. -/
def cfg0 : Config := { subnet := ⟨"10.210.0.0", 24⟩, managementIP := "10.210.0.1", peers := [] }

/-! ## Helper lemmas -/

/-- The empty remote-backend cache is well-formed. -/
theorem cacheWF_nil : CacheWF [] := by
  intro a b hb
  simp [cacheLookup] at hb

/-! ## C2: calls without metadata, forwarded calls, calls without machines -/

/-- C2: a call with no incoming metadata, or whose metadata carries the
proxy-authority key, or whose metadata has no machines entry, is routed
One2One to exactly the local backend with no error and leaves the Director
state unchanged. -/
theorem director_terminates_locally (dialOk : String → Bool) (s : DirectorState)
    (md : Option Metadata)
    (h : md = none ∨ ∃ m, md = some m ∧
      ((mdGet m "proxy-authority").isSome ∨ mdGet m "machines" = none)) :
    director dialOk s md = (⟨Mode.One2One, [s.localBackend], none⟩, s) := by
  rcases h with h | ⟨m, rfl, h⟩
  · subst h; rfl
  · rcases h with h | h
    · rcases Option.isSome_iff_exists.mp h with ⟨v, hv⟩
      simp [director, hv]
    · cases hp : mdGet m "proxy-authority" with
      | some v => simp [director, hp]
      | none => simp [director, hp, h]

/-- Witness for C2 at the concrete input md = none. -/
theorem director_terminates_locally_witness :
    director dOkAll s0 none = (⟨Mode.One2One, [s0.localBackend], none⟩, s0) :=
  director_terminates_locally dOkAll s0 none (Or.inl rfl)

/-! ## C5: machines entry present but empty -/

/-- C5: a call whose metadata contains a machines entry that is present but
empty gets an InvalidArgument error and an empty backend list, and the
Director state is unchanged. -/
theorem director_empty_machines_invalid (dialOk : String → Bool) (s : DirectorState)
    (m : Metadata)
    (h1 : mdGet m "proxy-authority" = none)
    (h2 : mdGet m "machines" = some []) :
    director dialOk s (some m) =
      (⟨Mode.One2One, [], some ⟨GCode.invalidArgument, "no machines specified"⟩⟩, s) := by
  simp [director, h1, h2]

/-- Witness for C5 at a concrete metadata with an empty machines list. -/
theorem director_empty_machines_invalid_witness :
    director dOkAll s0 (some mEmpty) =
      (⟨Mode.One2One, [], some ⟨GCode.invalidArgument, "no machines specified"⟩⟩, s0) :=
  director_empty_machines_invalid dOkAll s0 mEmpty rfl rfl

/-! ## C1: fan-out routing -/

/-- A successful remoteBackend call returns a backend created for the
requested address, leaves it cached, returns the previously cached backend
when one existed, preserves every cache entry and preserves cache
well-formedness. -/
theorem remoteBackend_ok (dialOk : String → Bool) (port : Nat) (st : RBState) (addr : String)
    (rb : RemoteBackend) (st' : RBState)
    (hwf : CacheWF st.cache)
    (h : remoteBackend dialOk port st addr = Except.ok (rb, st')) :
    rb.addr = addr
    ∧ cacheLookup st'.cache addr = some rb
    ∧ (∀ b0, cacheLookup st.cache addr = some b0 → rb = b0)
    ∧ (∀ a b, cacheLookup st.cache a = some b → cacheLookup st'.cache a = some b)
    ∧ CacheWF st'.cache := by
  unfold remoteBackend at h
  split at h
  next b hl =>
    injection h with h1
    injection h1 with hb hst
    subst hb; subst hst
    exact ⟨hwf addr _ hl, hl, fun b0 h0 => Option.some.inj (hl.symm.trans h0),
      fun a bb hbb => hbb, hwf⟩
  next hl =>
    split at h
    · injection h with h1
      injection h1 with hb hst
      subst hb; subst hst
      refine ⟨rfl, ?_, ?_, ?_, ?_⟩
      · simp [cacheInsert, cacheLookup]
      · intro b0 h0; rw [hl] at h0; cases h0
      · intro a bb hbb
        simp only [cacheInsert, cacheLookup]
        by_cases ha : addr = a
        · subst ha; rw [hl] at hbb; cases hbb
        · simp [ha, hbb]
      · intro a bb hbb
        simp only [cacheInsert, cacheLookup] at hbb
        by_cases ha : addr = a
        · subst ha; simp at hbb; rw [← hbb]
        · simp [ha] at hbb
          exact hwf a bb hbb
    · cases h

/-- The backend-building loop, when it succeeds, pairs every input address in
order with the backend the Director built for it, preserves cache entries and
preserves cache well-formedness. -/
theorem buildBackends_spec (dialOk : String → Bool) (port : Nat) (la : String) (lb : Backend) :
    ∀ (machines : List String) (st : RBState) (bs : List Backend) (st' : RBState),
      CacheWF st.cache →
      buildBackends dialOk port la lb st machines = (Except.ok bs, st') →
      List.Forall₂ (matchesBackend la lb st.cache st'.cache) machines bs
      ∧ (∀ a b, cacheLookup st.cache a = some b → cacheLookup st'.cache a = some b)
      ∧ CacheWF st'.cache := by
  intro machines
  induction machines with
  | nil =>
    intro st bs st' hwf h
    simp [buildBackends] at h
    obtain ⟨h1, h2⟩ := h
    subst h1; subst h2
    exact ⟨List.Forall₂.nil, fun a b hb => hb, hwf⟩
  | cons addr rest ih =>
    intro st bs st' hwf h
    unfold buildBackends at h
    by_cases haddr : addr = la
    · rw [if_pos haddr] at h
      split at h
      next bs2 st2 heq =>
        injection h with h1 h2
        injection h1 with hb
        subst hb; subst h2
        obtain ⟨hf, hmono, hwf'⟩ := ih st bs2 st2 hwf heq
        exact ⟨List.Forall₂.cons (Or.inl ⟨haddr, rfl⟩) hf, hmono, hwf'⟩
      next e st2 heq =>
        injection h with h1 h2
        cases h1
    · rw [if_neg haddr] at h
      split at h
      next b st1 hr =>
        obtain ⟨hbaddr, hlook1, huniq, hmono01, hwf1⟩ :=
          remoteBackend_ok dialOk port st addr b st1 hwf hr
        split at h
        next bs2 st2 heq =>
          injection h with h1 h2
          injection h1 with hb
          subst hb; subst h2
          obtain ⟨hf, hmono12, hwf'⟩ := ih st1 bs2 st2 hwf1 heq
          refine ⟨List.Forall₂.cons ?_ ?_, ?_, hwf'⟩
          · exact Or.inr ⟨haddr, b, rfl, hbaddr, hmono12 addr b hlook1, huniq⟩
          · refine List.Forall₂.imp ?_ hf
            intro a bb hm
            rcases hm with hm | ⟨hne, rb2, hbb, hrba, hlk, hun⟩
            · exact Or.inl hm
            · exact Or.inr ⟨hne, rb2, hbb, hrba, hlk,
                fun rb0 h0 => hun rb0 (hmono01 a rb0 h0)⟩
          · exact fun a bb hb0 => hmono12 a bb (hmono01 a bb hb0)
        next e st2 heq =>
          injection h with h1 h2
          cases h1
      next msg hr =>
        injection h with h1 h2
        cases h1

/-- C1: a call whose metadata carries a non-empty machines list (and is not a
forwarded call) and that returns without error gets a backend slice pairing
the input addresses in order — exactly N backends: the local backend for each
address equal to the current local address, and for every other address a
remote backend created for it, cached at the end of the call and equal to the
cached one when one already existed — and mode One2One when N = 1,
One2Many when N > 1. -/
theorem director_fanout_routing (dialOk : String → Bool) (s : DirectorState) (m : Metadata)
    (machines : List String) (r : RouteDecision) (s' : DirectorState)
    (hwf : CacheWF s.rb.cache)
    (hauth : mdGet m "proxy-authority" = none)
    (hm : mdGet m "machines" = some machines)
    (hne : machines ≠ [])
    (hd : director dialOk s (some m) = (r, s'))
    (hok : r.err = none) :
    List.Forall₂ (matchesBackend s.localAddress s.localBackend s.rb.cache s'.rb.cache)
        machines r.backends
    ∧ r.backends.length = machines.length
    ∧ (machines.length = 1 → r.mode = Mode.One2One)
    ∧ (1 < machines.length → r.mode = Mode.One2Many) := by
  cases machines with
  | nil => exact absurd rfl hne
  | cons a0 rest =>
    simp only [director, hauth, hm] at hd
    split at hd
    next e rbS hbb =>
      injection hd with h1 h2
      subst h1; subst h2
      simp at hok
    next bs rbS hbb =>
      obtain ⟨hf, hmono, hwf'⟩ := buildBackends_spec dialOk s.remotePort s.localAddress
        s.localBackend (a0 :: rest) s.rb bs rbS hwf hbb
      have hlength : (a0 :: rest).length = bs.length := hf.length_eq
      split at hd
      next hlen =>
        injection hd with h1 h2
        subst h1; subst h2
        exact ⟨hf, hlength.symm, fun _ => rfl, fun hlt => absurd hlength (by omega)⟩
      next hlen =>
        injection hd with h1 h2
        subst h1; subst h2
        exact ⟨hf, hlength.symm, fun h1 => absurd hlength (by omega), fun _ => rfl⟩

/-- Witness for C1 at a concrete two-address call (one local, one remote):
the Director returns two backends and mode One2Many. -/
theorem director_fanout_routing_witness :
    (director dOkAll s0 (some m0)).1.backends.length = mach0.length
    ∧ (director dOkAll s0 (some m0)).1.mode = Mode.One2Many := by
  have h := director_fanout_routing dOkAll s0 m0 mach0
    (director dOkAll s0 (some m0)).1 (director dOkAll s0 (some m0)).2
    cacheWF_nil rfl rfl (by simp [mach0]) Prod.mk.eta.symm rfl
  exact ⟨h.2.1, h.2.2.2 (by simp [mach0])⟩

/-! ## C3: address reconciliation in Configure -/

/-- Membership in the result of one tolerated AddrAdd. -/
theorem mem_addrAdd (kernel : List Addr) (a x : Addr) :
    x ∈ addrAdd kernel a ↔ x ∈ kernel ∨ x = a := by
  unfold addrAdd
  split
  next hin =>
    constructor
    · exact fun hx => Or.inl hx
    · rintro (hx | rfl)
      · exact hx
      · exact hin
  next hin =>
    simp [List.mem_append]

/-- Membership after the add loop of updateAddresses. -/
theorem mem_foldl_addrAdd (addrs : List Addr) :
    ∀ (kernel : List Addr) (x : Addr),
      x ∈ addrs.foldl addrAdd kernel ↔ x ∈ kernel ∨ x ∈ addrs := by
  induction addrs with
  | nil => intro kernel x; simp
  | cons a as ih =>
    intro kernel x
    rw [List.foldl_cons, ih, mem_addrAdd]
    simp [List.mem_cons]
    tauto

/-- updateAddresses leaves the interface bearing exactly the desired address
set: it adds every desired address and deletes every other one. -/
theorem updateAddresses_mem (kernel addrs : List Addr) (x : Addr) :
    x ∈ updateAddresses kernel addrs ↔ x ∈ addrs := by
  unfold updateAddresses
  simp [List.mem_filter, mem_foldl_addrAdd]
  tauto

/-- C3: after a successful Configure the interface's address set equals
exactly the management IP as a single-IP prefix together with the machine's
subnet prefix; any other address that was on the interface, including ones
added out of band, is gone. -/
theorem configure_exact_addresses (devPeers : List DevPeer) (cfg : Config) (st : NetState)
    (x : Addr) :
    x ∈ (Configure devPeers cfg st).kernelAddrs ↔
      (x = addrToSingleIPPfx cfg.managementIP ∨ x = machinePfx cfg) := by
  show x ∈ updateAddresses (configureDevice devPeers cfg st).kernelAddrs
      [addrToSingleIPPfx cfg.managementIP, machinePfx cfg] ↔ _
  rw [updateAddresses_mem]
  simp [List.mem_cons]

/-- Witness for C3 at a concrete Config: the management prefix is on the
interface after Configure. -/
theorem configure_exact_addresses_witness :
    addrToSingleIPPfx cfg0.managementIP ∈ (Configure [] cfg0 freshNet).kernelAddrs :=
  (configure_exact_addresses [] cfg0 freshNet (addrToSingleIPPfx cfg0.managementIP)).mpr
    (Or.inl rfl)

/-! ## C4: Run does not require a prior Configure -/

/-- Counterexample to C4: on the state produced by NewWireGuardNetwork — the
peers map is still nil and Configure has never run — Run does not return a
lifecycle error: its startup succeeds and merely sets the running flag. -/
theorem run_before_configure_counterexample :
    freshNet.peers = none ∧ freshNet.running = false ∧
      runStart freshNet = Except.ok { freshNet with running := true } :=
  ⟨rfl, rfl, rfl⟩

/-- C4 (amended): calling Run before Configure has ever been called (peers
map still nil) does not return an error: Run performs no Configure-related
precondition check, and its startup succeeds whenever the running flag is
clear. -/
theorem runStart_ignores_peers (st : NetState)
    (_h1 : st.peers = none) (h2 : st.running = false) :
    runStart st = Except.ok { st with running := true } := by
  unfold runStart
  rw [h2]
  simp

/-- Witness for the amended C4 on the freshly created network. -/
theorem runStart_ignores_peers_witness :
    runStart freshNet = Except.ok { freshNet with running := true } :=
  runStart_ignores_peers freshNet rfl rfl

/-! ## C6: load-or-store semantics of the remote backend cache -/

/-- C6: remoteBackend is a load-or-store cache. A call whose Load finds a
stored backend returns it without creating a new one and leaves the cache
unchanged; when a concurrent creator raced and stored first, the later
creator closes the backend it just built, adopts the stored one and leaves
the cache unchanged; and in every case the cache afterwards maps the address
to exactly the returned backend. (The hypothesis states that the cache only
grew between the two snapshots, which is how sync.Map behaves under
concurrent LoadOrStore calls.) -/
theorem remoteBackend_cache_semantics (c1 c2 : RBCache) (addr : String) (port freshId : Nat)
    (hmono : ∀ a b, cacheLookup c1 a = some b → cacheLookup c2 a = some b) :
    (∀ b, cacheLookup c1 addr = some b →
      (remoteBackendRace c1 c2 addr port freshId).backend = b
      ∧ (remoteBackendRace c1 c2 addr port freshId).created = false
      ∧ (remoteBackendRace c1 c2 addr port freshId).cache = c2)
    ∧ (∀ ex, cacheLookup c1 addr = none → cacheLookup c2 addr = some ex →
      (remoteBackendRace c1 c2 addr port freshId).backend = ex
      ∧ (remoteBackendRace c1 c2 addr port freshId).closedFresh = true
      ∧ (remoteBackendRace c1 c2 addr port freshId).cache = c2)
    ∧ cacheLookup (remoteBackendRace c1 c2 addr port freshId).cache addr =
        some (remoteBackendRace c1 c2 addr port freshId).backend := by
  refine ⟨?_, ?_, ?_⟩
  · intro b hb
    simp [remoteBackendRace, hb]
  · intro ex h1 h2
    simp [remoteBackendRace, h1, h2]
  · cases h1 : cacheLookup c1 addr with
    | some b =>
      simp only [remoteBackendRace, h1]
      exact hmono addr b h1
    | none =>
      cases h2 : cacheLookup c2 addr with
      | some ex => simp [remoteBackendRace, h1, h2]
      | none => simp [remoteBackendRace, h1, h2, cacheInsert, cacheLookup]

/-- Witness for C6: with an empty Load snapshot and a concurrently stored
backend visible to LoadOrStore, the call adopts the stored backend and closes
the fresh one. -/
theorem remoteBackend_cache_semantics_witness :
    (remoteBackendRace [] cStored "10.0.0.2" 51820 9).backend = rbStored
    ∧ (remoteBackendRace [] cStored "10.0.0.2" 51820 9).closedFresh = true := by
  have h := remoteBackend_cache_semantics [] cStored "10.0.0.2" 51820 9
    (fun a b hb => by simp [cacheLookup] at hb)
  have h2 := h.2.1 rbStored rfl rfl
  exact ⟨h2.1, h2.2.1⟩

/-! ## C7: a second Run is rejected while one is running -/

/-- C7: while the running flag is set, a second call to Run returns the
already-running error and its loop is never entered: over any event trace the
observed outcome is an immediate finish with the error and an unchanged
state. -/
theorem run_second_instance_rejected (st : NetState) (h : st.running = true) :
    runStart st = Except.error "network is already running"
    ∧ ∀ evs, runModel st evs =
        RunOutcome.finished st (Except.error "network is already running") := by
  have hs : runStart st = Except.error "network is already running" := by
    unfold runStart
    rw [h]
    simp
  refine ⟨hs, fun evs => ?_⟩
  unfold runModel
  rw [hs]

/-- Witness for C7 on a concrete running network. -/
theorem run_second_instance_rejected_witness :
    runStart runningNet = Except.error "network is already running" :=
  (run_second_instance_rejected runningNet rfl).1

/-! ## C8: watcher send timeouts are contained -/

/-- The only error notifyWatchers ever returns is the 1-second send timeout. -/
theorem notifyWatchers_error (outcome : Nat → Nat → SendOutcome) (ws : List WChan)
    (events : List EndpointChangeEvent) (e : String)
    (h : notifyWatchers outcome ws events = Except.error e) :
    e = "timeout 1 second" := by
  unfold notifyWatchers at h
  split at h
  · injection h with h1
    exact h1.symm
  · cases h

/-- updatePeersFromDevice returns nil on every path: a notifyWatchers error
is logged and swallowed. -/
theorem updatePeersFromDevice_ok (outcome : Nat → Nat → SendOutcome)
    (devPeers : List DevPeer) (st : NetState) :
    (updatePeersFromDevice outcome devPeers st).2 = Except.ok () := by
  unfold updatePeersFromDevice
  cases st.peers with
  | none => rfl
  | some ps =>
    simp only []
    split
    · rfl
    · rfl

/-- The loop of Run finishes only through the ctx.Done branch: the result is
nil and the final state is the cancel effect applied to some loop state. -/
theorem runLoop_finished_shape (evs : List RunEvent) :
    ∀ st st' r, runLoop st evs = RunOutcome.finished st' r →
      r = Except.ok () ∧ ∃ s, st' = cancelEffect s := by
  induction evs with
  | nil =>
    intro st st' r h
    cases h
  | cons ev rest ih =>
    intro st st' r h
    cases ev with
    | tick env => exact ih (tickEffect env st) st' r h
    | cancel =>
      injection h with h1 h2
      exact ⟨h2.symm, st, h1.symm⟩

/-- A finished Run returns either nil (cancellation) or the already-running
startup error; no other error ever escapes the control loop. -/
theorem runModel_finished_res (st₀ : NetState) (evs : List RunEvent) (st' : NetState)
    (r : Except String Unit) (h : runModel st₀ evs = RunOutcome.finished st' r) :
    r = Except.ok () ∨ r = Except.error "network is already running" := by
  unfold runModel at h
  cases hs : runStart st₀ with
  | error e =>
    rw [hs] at h
    injection h with h1 h2
    unfold runStart at hs
    split at hs
    · injection hs with h3
      right
      rw [← h2, ← h3]
    · cases hs
  | ok st1 =>
    rw [hs] at h
    exact Or.inl (runLoop_finished_shape evs st1 st' r h).1

/-- C8: when a publication to the watchers fails, the failure is the 1-second
send timeout; the tick that published it still returns nil (the error is
logged and swallowed by updatePeersFromDevice); and no finished Run ever
surfaces the timeout as its result. -/
theorem watcher_timeout_logged_and_contained (outcome : Nat → Nat → SendOutcome)
    (ws : List WChan) (events : List EndpointChangeEvent) (devPeers : List DevPeer)
    (st : NetState) (e : String)
    (h : notifyWatchers outcome ws events = Except.error e) :
    e = "timeout 1 second"
    ∧ (updatePeersFromDevice outcome devPeers st).2 = Except.ok ()
    ∧ (∀ st₀ evs st' r, runModel st₀ evs = RunOutcome.finished st' r →
        r ≠ Except.error "timeout 1 second") := by
  refine ⟨notifyWatchers_error outcome ws events e h,
    updatePeersFromDevice_ok outcome devPeers st, ?_⟩
  intro st₀ evs st' r hr hcontra
  rcases runModel_finished_res st₀ evs st' r hr with h1 | h1
  · rw [h1] at hcontra
    cases hcontra
  · rw [h1] at hcontra
    injection hcontra with h2
    exact absurd h2 (by decide)

/-- Witness for C8: with a slow watcher (every send times out) and one
pending event, notifyWatchers fails with the timeout error and the
containment facts hold. -/
theorem watcher_timeout_logged_and_contained_witness :
    ("timeout 1 second" : String) = "timeout 1 second"
    ∧ (updatePeersFromDevice allTimeout [] freshNet).2 = Except.ok ()
    ∧ (∀ st₀ evs st' r, runModel st₀ evs = RunOutcome.finished st' r →
        r ≠ Except.error "timeout 1 second") :=
  watcher_timeout_logged_and_contained allTimeout [⟨0, false⟩] [ev0] [] freshNet
    "timeout 1 second" rfl

/-! ## C9: context cancellation closes watchers and is not an error -/

/-- C9: when the context passed to a Run that actually started is cancelled,
Run returns nil — cancellation is not surfaced as an error — with the running
flag cleared and every registered watcher channel closed. -/
theorem run_cancel_closes_watchers (st : NetState) (evs : List RunEvent) (st' : NetState)
    (r : Except String Unit)
    (h0 : st.running = false)
    (h : runModel st evs = RunOutcome.finished st' r) :
    r = Except.ok () ∧ st'.running = false ∧ ∀ w ∈ st'.watchers, w.closed = true := by
  unfold runModel at h
  have hs : runStart st = Except.ok { st with running := true } := by
    unfold runStart
    rw [h0]
    simp
  rw [hs] at h
  obtain ⟨hr, s, hst⟩ := runLoop_finished_shape evs _ st' r h
  subst hst
  refine ⟨hr, rfl, ?_⟩
  intro w hw
  simp only [cancelEffect, List.mem_map] at hw
  obtain ⟨w0, hw0, hmap⟩ := hw
  rw [← hmap]

/-- Witness for C9: a network with two registered watchers, cancelled on the
first loop iteration. -/
theorem run_cancel_closes_watchers_witness :
    (Except.ok () : Except String Unit) = Except.ok ()
    ∧ (cancelEffect { watchedNet with running := true }).running = false
    ∧ ∀ w ∈ (cancelEffect { watchedNet with running := true }).watchers, w.closed = true :=
  run_cancel_closes_watchers watchedNet [RunEvent.cancel]
    (cancelEffect { watchedNet with running := true }) (Except.ok ()) rfl rfl

/-! ## C10: Cleanup requires the network to be stopped -/

/-- C10: Cleanup called while the control loop is running returns an error
and leaves the state — in particular the link field — unchanged; when the
network is not running (and the kernel delete succeeds) Cleanup deletes the
link and clears the link field. -/
theorem cleanup_requires_not_running (delOk : Bool) (st : NetState) :
    (st.running = true →
      Cleanup delOk st = (st, Except.error "network is still running, stop it before cleanup"))
    ∧ (st.running = false → delOk = true →
      Cleanup delOk st = ({ st with link := none }, Except.ok ())) := by
  constructor
  · intro h
    unfold Cleanup
    rw [h]
    simp
  · intro h hd
    unfold Cleanup
    rw [h, hd]
    simp

/-- Witness for C10: Cleanup on a running network errors and keeps the state;
on a stopped network it succeeds and clears the link. -/
theorem cleanup_requires_not_running_witness :
    Cleanup true runningNet =
      (runningNet, Except.error "network is still running, stop it before cleanup")
    ∧ Cleanup true freshNet = ({ freshNet with link := none }, Except.ok ()) :=
  ⟨(cleanup_requires_not_running true runningNet).1 rfl,
   (cleanup_requires_not_running true freshNet).2 rfl rfl⟩

end Uncloud
